import Mathlib

/-
Verification of the workflow-orchestration core of the video-to-educational-content
pipeline (BigWorkflowService, BatchManagerService, ProcesamientoRepository).

The embedding mirrors the Python source:
  - `ProcesamientoRepository.create_detalle_etapa` / `update_detalle_estado` become
    operations on a `DB` state holding the list of Stage records (`Detalle`) together
    with the log of issued repository operations (`Op`).
  - `BigWorkflowService._run_step_with_retry` becomes `run_step_with_retry`.
  - `BigWorkflowService.orchestrate_up_to_summary` becomes `orchestrate_up_to_summary`,
    with all external collaborators (video download, audio extraction, transcription,
    summarization, PDF/podcast generation) abstracted as a record of fallible
    functions (`Env`), and the local filesystem as a list of existing paths.
  - `BatchManagerService._process_single_item` / `process_batch_list` become
    `process_single_item` / `process_batch_list`, with the per-item processing
    (session creation plus workflow run) abstracted as a fallible function.
Python truthiness and str() are modelled by the `PyLike` class; `PyVal` covers the
falsy payload values (None, "", 0, False) mentioned in the source comments.
-/

namespace BSG

/-- Model of the Python values a unit of work may return, with their truthiness. -/
inductive PyVal : Type
  | none : PyVal
  | str (s : String) : PyVal
  | int (n : Int) : PyVal
  | bool (b : Bool) : PyVal
deriving DecidableEq, Repr

def PyVal.truthy : PyVal → Bool
  | .none => false
  | .str s => !s.isEmpty
  | .int n => n != 0
  | .bool b => b

def PyVal.pyStr : PyVal → String
  | .none => "None"
  | .str s => s
  | .int n => toString n
  | .bool b => if b then "True" else "False"

/-- Python truthiness and stringification for the payload types flowing through
the runner (plain strings for paths/URLs/texts, `PyVal` for the general case). -/
class PyLike (α : Type) where
  truthy : α → Bool
  pyStr : α → String

instance : PyLike PyVal := ⟨PyVal.truthy, PyVal.pyStr⟩

instance : PyLike String := ⟨fun s => !s.isEmpty, fun s => s⟩

/-- One Stage record (a row of T_DetalleProcesamientoSesionOnline). -/
structure Detalle where
  sesionId : Nat
  etapaId : Nat
  estado : Nat
  resultado : String
  nroErrores : Nat
deriving DecidableEq, Repr

/-- A repository operation issued against the stage store, as recorded in the log. -/
inductive Op : Type
  | create (detalleId sesionId etapaId : Nat)
  | update (detalleId estadoId : Nat) (resultado : String) (nroErrores : Nat)
deriving DecidableEq, Repr

def Op.target : Op → Nat
  | .create d _ _ => d
  | .update d _ _ _ => d

def Op.isTerminal : Op → Bool
  | .create _ _ _ => false
  | .update _ e _ _ => e == 3 || e == 4

/-- The stage store: the rows plus the chronological log of issued operations. -/
structure DB where
  detalles : List Detalle
  log : List Op
deriving DecidableEq, Repr

def emptyDB : DB := ⟨[], []⟩

/-- ProcesamientoRepository.create_detalle_etapa: inserts a new stage record
(estado 2, "En Proceso", per the stored procedure's documented behaviour) and
returns its id, which is the index of the new row. -/
def create_detalle_etapa (db : DB) (sesionId etapaId : Nat) : DB :=
  ⟨db.detalles ++ [⟨sesionId, etapaId, 2, "", 0⟩],
   db.log ++ [.create db.detalles.length sesionId etapaId]⟩

def setDetalle : List Detalle → Nat → Nat → String → Nat → List Detalle
  | [], _, _, _, _ => []
  | d :: ds, 0, est, res, err => ⟨d.sesionId, d.etapaId, est, res, err⟩ :: ds
  | d :: ds, n + 1, est, res, err => d :: setDetalle ds n est res err

/-- ProcesamientoRepository.update_detalle_estado: unconditionally issues the
state update for the given stage record (the Python layer performs no check of
the record's current state before executing the stored procedure). -/
def update_detalle_estado (db : DB) (detalleId estadoId : Nat) (resultado : String)
    (nroErrores : Nat) : DB :=
  ⟨setDetalle db.detalles detalleId estadoId resultado nroErrores,
   db.log ++ [.update detalleId estadoId resultado nroErrores]⟩

/-- BigWorkflowService._run_step_with_retry.  Despite its name the source makes a
single attempt: create the stage record, mark it "Procesando...", call the unit of
work once; on success store str(result) (or "Completado." when the result is falsy)
with estado 3 and error count 0; on exception store "Error: <msg>" with estado 4 and
error count 1 and re-raise.  The unit of work is modelled as a function of the
attempt index so that multi-attempt behaviours are expressible; the runner only
ever consults attempt 0. -/
def run_step_with_retry {α : Type} [PyLike α] (db : DB) (sesionId etapaId : Nat)
    (func : Nat → Except String α) : DB × Except String α :=
  let detalleId := db.detalles.length
  let db1 := create_detalle_etapa db sesionId etapaId
  let db2 := update_detalle_estado db1 detalleId 2 "Procesando..." 0
  match func 0 with
  | .ok v =>
      let content := if PyLike.truthy v then PyLike.pyStr v else "Completado."
      (update_detalle_estado db2 detalleId 3 content 0, .ok v)
  | .error e =>
      (update_detalle_estado db2 detalleId 4 ("Error: " ++ e) 1, .error e)

/-- A unit of work that fails on its first `k` attempts and succeeds from then on. -/
def failsThenSucceeds (k : Nat) (e : String) (v : PyVal) : Nat → Except String PyVal :=
  fun i => if i < k then .error e else .ok v

/-- The input dict handed to orchestrate_up_to_summary (UrlVideo,
IdPEspecificoSesion, TipoResumenGrabacionOnline). -/
structure WorkflowData where
  urlVideo : String
  idPEspecificoSesion : Nat
  tipos : List Nat
deriving DecidableEq, Repr

/-- The success report returned by orchestrate_up_to_summary. -/
structure Report where
  message : String
  sesionId : Nat
  status : String
  summaryPreview : String
  pdfUrl : Option String
  podcastUrl : Option String
deriving DecidableEq, Repr

/-- The external collaborators of the orchestrator, each a fallible function:
video download (returns local path), audio extraction (path → path),
transcription (path, session → text), summarization, PDF generation/upload
(session, summary, pe-sesion → URL), podcast script and podcast audio. -/
structure Env where
  download : String → Except String String
  extractAudio : String → Except String String
  transcribe : String → Nat → Except String String
  summarize : String → Except String String
  genPdf : Nat → String → Nat → Except String String
  podcastScript : Nat → String → Except String String
  podcastAudio : Nat → String → Nat → Except String String

/-- The _transcribe_task closure: transcribe, then raise ValueError "Texto vacío."
when the text is falsy or shorter than 10 characters. -/
def transcribeTask (env : Env) (audioPath : String) (sesionId : Nat) :
    Except String String :=
  match env.transcribe audioPath sesionId with
  | .error e => .error e
  | .ok t => if t.length < 10 then .error "Texto vacío." else .ok t

/-- os.remove: the path no longer exists afterwards. -/
def removeFile (fs : List String) (p : String) : List String :=
  fs.filter (fun q => q != p)

/-- The finally block: if video_path is truthy and the file exists, try to remove
it, swallowing any removal error (`removeFails` is the oracle for os.remove
raising). -/
def cleanup (fs : List String) (videoPath : Option String) (removeFails : Bool) :
    List String :=
  match videoPath with
  | Option.none => fs
  | Option.some p =>
      if p != "" && fs.contains p then
        (if removeFails then fs else removeFile fs p)
      else fs

instance {ε α : Type} [DecidableEq ε] [DecidableEq α] : DecidableEq (Except ε α) :=
fun a b =>
  match a, b with
  | .error e, .error f =>
      if h : e = f then isTrue (congrArg Except.error h)
      else isFalse (fun hh => h (Except.error.inj hh))
  | .error _, .ok _ => isFalse (fun hh => Except.noConfusion hh)
  | .ok _, .error _ => isFalse (fun hh => Except.noConfusion hh)
  | .ok x, .ok y =>
      if h : x = y then isTrue (congrArg Except.ok h)
      else isFalse (fun hh => h (Except.ok.inj hh))

/-- The observable result of one orchestrator run: the stage store, the local
filesystem, and the returned report or propagated exception. -/
structure OrchOut where
  db : DB
  fs : List String
  outcome : Except String Report
deriving DecidableEq, Repr

/-- The state at the end of the orchestrator's try body, before the finally
block runs: the stage store, the video_path local variable (None until the
download stage returned), and the report or the exception being propagated. -/
structure MainOut where
  db : DB
  videoPath : Option String
  outcome : Except String Report
deriving DecidableEq, Repr

/-- The try body of BigWorkflowService.orchestrate_up_to_summary: download
(etapa 1) → extract audio (2) → transcribe (3) → summarize (4) → optional PDF
(5, when kind 1 was requested) → optional podcast script (6) and podcast audio
(7, when kind 3 was requested); every step runs through run_step_with_retry and
any step's exception propagates immediately, skipping everything after it. -/
def orchestrate_main (env : Env) (db : DB) (sesionId : Nat)
    (data : WorkflowData) : MainOut :=
  let st1 := run_step_with_retry db sesionId 1 (fun _ => env.download data.urlVideo)
  match st1.2 with
  | .error e => ⟨st1.1, Option.none, .error e⟩
  | .ok videoPath =>
    let st2 := run_step_with_retry st1.1 sesionId 2 (fun _ => env.extractAudio videoPath)
    match st2.2 with
    | .error e => ⟨st2.1, Option.some videoPath, .error e⟩
    | .ok audioPath =>
      let st3 := run_step_with_retry st2.1 sesionId 3
        (fun _ => transcribeTask env audioPath sesionId)
      match st3.2 with
      | .error e => ⟨st3.1, Option.some videoPath, .error e⟩
      | .ok transcriptText =>
        let st4 := run_step_with_retry st3.1 sesionId 4
          (fun _ => env.summarize transcriptText)
        match st4.2 with
        | .error e => ⟨st4.1, Option.some videoPath, .error e⟩
        | .ok summaryText =>
          let pdfStep : DB × Except String (Option String) :=
            if data.tipos.contains 1 then
              let st5 := run_step_with_retry st4.1 sesionId 5
                (fun _ => env.genPdf sesionId summaryText data.idPEspecificoSesion)
              (st5.1, st5.2.map Option.some)
            else (st4.1, .ok Option.none)
          match pdfStep.2 with
          | .error e => ⟨pdfStep.1, Option.some videoPath, .error e⟩
          | .ok pdfUrlResult =>
            let podStep : DB × Except String (Option String) :=
              if data.tipos.contains 3 then
                let st6 := run_step_with_retry pdfStep.1 sesionId 6
                  (fun _ => env.podcastScript sesionId summaryText)
                match st6.2 with
                | .error e => (st6.1, .error e)
                | .ok scriptText =>
                  let st7 := run_step_with_retry st6.1 sesionId 7
                    (fun _ => env.podcastAudio sesionId scriptText data.idPEspecificoSesion)
                  (st7.1, st7.2.map Option.some)
              else (pdfStep.1, .ok Option.none)
            match podStep.2 with
            | .error e => ⟨podStep.1, Option.some videoPath, .error e⟩
            | .ok podcastUrlResult =>
              ⟨podStep.1, Option.some videoPath,
               .ok ⟨"Workflow completado exitosamente", sesionId, "success",
                    summaryText.take 100 ++ "...", pdfUrlResult, podcastUrlResult⟩⟩

/-- BigWorkflowService.orchestrate_up_to_summary: run the try body, then apply
the finally block (delete the downloaded video file, swallowing removal
errors) to the filesystem; the report or exception of the try body is returned
unchanged.  The downloaded file enters the filesystem exactly when the
download collaborator succeeded. -/
def orchestrate_up_to_summary (env : Env) (removeFails : Bool) (db : DB)
    (fs : List String) (sesionId : Nat) (data : WorkflowData) : OrchOut :=
  let fs1 := match env.download data.urlVideo with
    | .ok p => p :: fs
    | .error _ => fs
  let m := orchestrate_main env db sesionId data
  ⟨m.db, cleanup fs1 m.videoPath removeFails, m.outcome⟩

/-- One entry of the batch report: the success dict
\x7binput_id, sesion_id, status: "success", details\x7d or the error dict
\x7binput_id, status: "error", error\x7d, modelled with optional fields. -/
structure ItemOutcome (β : Type) where
  inputId : Nat
  sesionId : Option Nat
  status : String
  details : Option β
  errorMsg : Option String
deriving DecidableEq, Repr

/-- BatchManagerService._process_single_item: run the item's whole processing
(session creation plus workflow, abstracted as `proc`, which on success yields
the session id and the pipeline report); any exception is caught and converted
into an error outcome, so the function always returns an outcome. -/
def process_single_item {α β : Type} (getId : α → Nat)
    (proc : α → Except String (Nat × β)) (item : α) : ItemOutcome β :=
  match proc item with
  | .ok r => ⟨getId item, Option.some r.1, "success", Option.some r.2, Option.none⟩
  | .error e => ⟨getId item, Option.none, "error", Option.none, Option.some e⟩

/-- The successive waves `requests_data[i : i + batchSize]` of the batch loop
`for i in range(0, total_items, batch_size)`. -/
def chunks {α : Type} (W : Nat) : List α → List (List α)
  | [] => []
  | a :: rest =>
    if hW0 : W = 0 then [] else
      (a :: rest).take W :: chunks W ((a :: rest).drop W)
termination_by l => l.length
decreasing_by
  have hW : 0 < W := Nat.pos_of_ne_zero hW0
  simp only [List.length_drop, List.length_cons]
  omega

/-- The final batch report. -/
structure BatchReport (β : Type) where
  totalProcessed : Nat
  success : Nat
  failed : Nat
  results : List (ItemOutcome β)
deriving DecidableEq, Repr

/-- BatchManagerService.process_batch_list: split the requests into consecutive
waves of size batchSize, process each wave's items (asyncio.gather keeps the
wave's input order and waits for all of them), extend the result list wave by
wave, and aggregate the counts. -/
def process_batch_list {α β : Type} (getId : α → Nat)
    (proc : α → Except String (Nat × β)) (requestsData : List α)
    (batchSize : Nat) : BatchReport β :=
  let waves := chunks batchSize requestsData
  let results := (waves.map (fun wave => wave.map (process_single_item getId proc))).flatten
  let successCount := (results.filter (fun r => r.status == "success")).length
  ⟨requestsData.length, successCount, requestsData.length - successCount, results⟩

/-- An environment in which every collaborator succeeds. -/
def envAllOk : Env :=
  ⟨fun _ => .ok "/tmp/7.mp4", fun _ => .ok "/tmp/7.mp3",
   fun _ _ => .ok "texto transcrito largo", fun _ => .ok "resumen de la sesion",
   fun _ _ _ => .ok "https://blob/guia.pdf", fun _ _ => .ok "guion del podcast",
   fun _ _ _ => .ok "https://blob/podcast.mp3"⟩

/-- An environment in which only the PDF generator fails. -/
def envPdfFails : Env :=
  ⟨fun _ => .ok "/tmp/7.mp4", fun _ => .ok "/tmp/7.mp3",
   fun _ _ => .ok "texto transcrito largo", fun _ => .ok "resumen de la sesion",
   fun _ _ _ => .error "pdf caido", fun _ _ => .ok "guion del podcast",
   fun _ _ _ => .ok "https://blob/podcast.mp3"⟩

/-- An environment in which the transcription collaborator fails. -/
def envTransFails : Env :=
  ⟨fun _ => .ok "/tmp/7.mp4", fun _ => .ok "/tmp/7.mp3",
   fun _ _ => .error "azure caido", fun _ => .ok "resumen de la sesion",
   fun _ _ _ => .ok "https://blob/guia.pdf", fun _ _ => .ok "guion del podcast",
   fun _ _ _ => .ok "https://blob/podcast.mp3"⟩

/-- A stage store holding a single Completed stage record, for exercising
update_detalle_estado on a terminal record. -/
def dbCompleted : DB :=
  ⟨[⟨1, 1, 3, "hecho", 0⟩],
   [.create 0 1 1, .update 0 2 "Procesando..." 0, .update 0 3 "hecho" 0]⟩

/-- A concrete per-item processing function: items that are multiples of 3 fail. -/
def proc25 : Nat → Except String (Nat × Nat) :=
  fun n => if n % 3 == 0 then .error "item caido" else .ok (100 + n, n)

/-- Scan of an operation log: after any terminal update (estado 3 or 4) of a
stage record, no later operation targets that record. -/
def okLog : List Op → Bool
  | [] => true
  | op :: rest =>
      ((!op.isTerminal) || rest.all (fun o => o.target != op.target)) && okLog rest

/-- All operations in the log target a stage record with id below n. -/
def targetsLt (n : Nat) (log : List Op) : Bool :=
  log.all (fun op => decide (op.target < n))

/-- Invariant of the stage store: the log never mutates a record after its
terminal update, and only records that exist are targeted. -/
def Inv (db : DB) : Prop :=
  okLog db.log = true ∧ targetsLt db.detalles.length db.log = true

/- ------------------------------------------------------------------ -/
/- Helper lemmas                                                       -/
/- ------------------------------------------------------------------ -/

theorem setDetalle_append (l : List Detalle) (d : Detalle) (est : Nat) (res : String)
    (err : Nat) :
    setDetalle (l ++ [d]) l.length est res err
      = l ++ [⟨d.sesionId, d.etapaId, est, res, err⟩] := by
  induction l with
  | nil => rfl
  | cons a as ih => simp [setDetalle, ih]

theorem run_step_eq_ok {α : Type} [PyLike α] (db : DB) (s e : Nat)
    (f : Nat → Except String α) (v : α) (hf : f 0 = .ok v) :
    run_step_with_retry db s e f =
      (⟨db.detalles ++
          [⟨s, e, 3, if PyLike.truthy v then PyLike.pyStr v else "Completado.", 0⟩],
        db.log ++
          [.create db.detalles.length s e,
           .update db.detalles.length 2 "Procesando..." 0,
           .update db.detalles.length 3
             (if PyLike.truthy v then PyLike.pyStr v else "Completado.") 0]⟩,
       .ok v) := by
  simp [run_step_with_retry, hf, create_detalle_etapa, update_detalle_estado,
    setDetalle_append]

theorem run_step_eq_err {α : Type} [PyLike α] (db : DB) (s e : Nat)
    (f : Nat → Except String α) (m : String) (hf : f 0 = .error m) :
    run_step_with_retry db s e f =
      (⟨db.detalles ++ [⟨s, e, 4, "Error: " ++ m, 1⟩],
        db.log ++
          [.create db.detalles.length s e,
           .update db.detalles.length 2 "Procesando..." 0,
           .update db.detalles.length 4 ("Error: " ++ m) 1]⟩,
       .error m) := by
  simp [run_step_with_retry, hf, create_detalle_etapa, update_detalle_estado,
    setDetalle_append]

theorem run_step_first_attempt_only {α : Type} [PyLike α] (db : DB) (s e : Nat)
    (f g : Nat → Except String α) (hfg : g 0 = f 0) :
    run_step_with_retry db s e g = run_step_with_retry db s e f := by
  simp [run_step_with_retry, hfg]

/- ------------------------------------------------------------------ -/
/- Claims about the stage runner                                       -/
/- ------------------------------------------------------------------ -/

/-- Claim C1, counterexample.  A unit of work that fails exactly once and then
succeeds (k = 1 < max_attempts = 3) does not end the Stage Completed with
error-count 1: the runner makes a single attempt, so the Stage ends Failed
(estado 4) and the error propagates. -/
theorem C1_counterexample :
    (run_step_with_retry emptyDB 1 1 (failsThenSucceeds 1 "falla" (.str "listo"))).1.detalles
        = [⟨1, 1, 4, "Error: falla", 1⟩]
  ∧ ((run_step_with_retry emptyDB 1 1
        (failsThenSucceeds 1 "falla" (.str "listo"))).1.detalles.map Detalle.estado ≠ [3])
  ∧ (run_step_with_retry emptyDB 1 1 (failsThenSucceeds 1 "falla" (.str "listo"))).2
        = .error "falla" := by
  refine ⟨rfl, by decide, rfl⟩

/-- Claim C1, amended.  The runner makes exactly one attempt, so the only
possible value of k is 0: a unit of work that succeeds on its first call
completes the Stage (estado 3) with error-count 0, stores the stringified
return value (or the generic label "Completado." when the value is falsy) as
the result text, and returns the raw value; the runner's entire behaviour
depends only on the unit's first attempt. -/
theorem C1_amended {α : Type} [PyLike α] (db : DB) (s e : Nat)
    (f : Nat → Except String α) (v : α) (hf : f 0 = .ok v) :
    (run_step_with_retry db s e f).1.detalles
        = db.detalles ++
            [⟨s, e, 3, if PyLike.truthy v then PyLike.pyStr v else "Completado.", 0⟩]
  ∧ (run_step_with_retry db s e f).2 = .ok v
  ∧ (∀ g : Nat → Except String α, g 0 = f 0 →
        run_step_with_retry db s e g = run_step_with_retry db s e f) := by
  refine ⟨?_, ?_, fun g hg => run_step_first_attempt_only db s e f g hg⟩
  · rw [run_step_eq_ok db s e f v hf]
  · rw [run_step_eq_ok db s e f v hf]

/-- Claim C1, witness: a concrete unit of work succeeding on its first attempt
(k = 0) with a truthy payload. -/
theorem C1_witness :
    (run_step_with_retry emptyDB 9 1 (failsThenSucceeds 0 "x" (.str "listo"))).1.detalles
        = [⟨9, 1, 3, "listo", 0⟩]
  ∧ (run_step_with_retry emptyDB 9 1 (failsThenSucceeds 0 "x" (.str "listo"))).2
        = .ok (.str "listo") := by
  have h := C1_amended emptyDB 9 1 (failsThenSucceeds 0 "x" (.str "listo"))
    (.str "listo") rfl
  exact ⟨by simpa using h.1, h.2.1⟩

/-- Claim C2, counterexample.  A unit of work that fails on every attempt leads
to a Failed Stage whose recorded error-count is 1, not max_attempts = 3: the
runner makes a single attempt. -/
theorem C2_counterexample :
    (run_step_with_retry emptyDB 1 1
        (fun _ => (Except.error "falla" : Except String PyVal))).1.detalles
        = [⟨1, 1, 4, "Error: falla", 1⟩]
  ∧ ((run_step_with_retry emptyDB 1 1
        (fun _ => (Except.error "falla" : Except String PyVal))).1.detalles.map
          Detalle.nroErrores ≠ [3]) := by
  refine ⟨rfl, by decide⟩

/-- Claim C2, amended.  A unit of work whose (single) attempt fails results in
the Stage being marked Failed (estado 4) with error-count 1 and error text
"Error: " followed by the exception's message, and the exception is re-raised
to the caller; the runner never makes a second attempt. -/
theorem C2_amended {α : Type} [PyLike α] (db : DB) (s e : Nat)
    (f : Nat → Except String α) (m : String) (hf : f 0 = .error m) :
    (run_step_with_retry db s e f).1.detalles
        = db.detalles ++ [⟨s, e, 4, "Error: " ++ m, 1⟩]
  ∧ (run_step_with_retry db s e f).2 = .error m
  ∧ (∀ g : Nat → Except String α, g 0 = f 0 →
        run_step_with_retry db s e g = run_step_with_retry db s e f) := by
  refine ⟨?_, ?_, fun g hg => run_step_first_attempt_only db s e f g hg⟩
  · rw [run_step_eq_err db s e f m hf]
  · rw [run_step_eq_err db s e f m hf]

/-- Claim C2, witness: a concrete always-failing unit of work. -/
theorem C2_witness :
    (run_step_with_retry emptyDB 9 2
        (fun _ => (Except.error "timeout" : Except String PyVal))).1.detalles
        = [⟨9, 2, 4, "Error: timeout", 1⟩]
  ∧ (run_step_with_retry emptyDB 9 2
        (fun _ => (Except.error "timeout" : Except String PyVal))).2
        = .error "timeout" := by
  have h := C2_amended emptyDB 9 2
    (fun _ => (Except.error "timeout" : Except String PyVal)) "timeout" rfl
  exact ⟨by simpa using h.1, h.2.1⟩

/-- Claim C10: a unit of work that succeeds with a falsy value (None, "", 0 or
False) has the generic label "Completado." stored as the Stage's result text
instead of the stringified value, while the raw falsy value is still returned
to the caller. -/
theorem C10_falsy_result (db : DB) (s e : Nat) (v : PyVal) (hv : v.truthy = false) :
    (run_step_with_retry db s e (fun _ => .ok v)).1.detalles
        = db.detalles ++ [⟨s, e, 3, "Completado.", 0⟩]
  ∧ (run_step_with_retry db s e (fun _ => .ok v)).2 = .ok v := by
  rw [run_step_eq_ok db s e (fun _ => .ok v) v rfl]
  have hv2 : PyLike.truthy v = false := hv
  rw [hv2]
  exact ⟨rfl, rfl⟩

/-- Claim C10, witness: the empty string payload is falsy, so the Stage stores
"Completado." rather than the (empty) payload. -/
theorem C10_witness :
    (run_step_with_retry emptyDB 9 3 (fun _ => .ok (PyVal.str ""))).1.detalles
        = [⟨9, 3, 3, "Completado.", 0⟩]
  ∧ (run_step_with_retry emptyDB 9 3 (fun _ => .ok (PyVal.str ""))).2
        = .ok (.str "") := by
  have h := C10_falsy_result emptyDB 9 3 (.str "") rfl
  exact ⟨by simpa using h.1, h.2⟩

theorem chunks_nil {α : Type} (W : Nat) : chunks W ([] : List α) = [] := by
  simp [chunks]

theorem chunks_flatten {α : Type} (W : Nat) (hW : 0 < W) (l : List α) :
    (chunks W l).flatten = l := by
  induction l using chunks.induct W with
  | case1 => simp [chunks]
  | case2 a rest h => exact absurd h (Nat.pos_iff_ne_zero.mp hW)
  | case3 a rest h ih =>
    rw [chunks]
    simp only [dif_neg h]
    simp [ih, List.take_append_drop]

theorem chunks_length {α : Type} (W : Nat) (hW : 0 < W) (l : List α) :
    (chunks W l).length = (l.length + W - 1) / W := by
  induction l using chunks.induct W with
  | case1 =>
    simp [chunks]
    rw [Nat.div_eq_of_lt (by omega)]
  | case2 a rest h => exact absurd h (Nat.pos_iff_ne_zero.mp hW)
  | case3 a rest h ih =>
    rw [chunks]
    simp only [dif_neg h]
    simp only [List.length_cons, List.length_drop] at ih ⊢
    rw [ih]
    have hkey : rest.length + 1 + W - 1 = (rest.length + 1 - 1) + W := by omega
    rw [hkey, Nat.add_div_right _ hW]
    rcases le_or_lt (rest.length + 1) W with hle | hlt
    · have h1 : rest.length + 1 - W = 0 := by omega
      rw [h1]
      have e1 : (0 + W - 1) / W = 0 := Nat.div_eq_of_lt (by omega)
      have e2 : (rest.length + 1 - 1) / W = 0 := Nat.div_eq_of_lt (by omega)
      omega
    · have h1 : rest.length + 1 - W + W - 1 = rest.length + 1 - 1 := by omega
      have h2 : (rest.length + 1 - W + W - 1) / W = (rest.length + 1 - 1) / W := by
        rw [h1]
      omega

theorem chunks_mem {α : Type} (W : Nat) (hW : 0 < W) (l : List α) :
    ∀ c ∈ chunks W l, c.length ≤ W ∧ c ≠ [] := by
  induction l using chunks.induct W with
  | case1 => simp [chunks]
  | case2 a rest h => exact absurd h (Nat.pos_iff_ne_zero.mp hW)
  | case3 a rest h ih =>
    rw [chunks]
    simp only [dif_neg h]
    intro c hc
    rcases List.mem_cons.mp hc with hc | hc
    · subst hc
      constructor
      · simpa using Nat.min_le_left W _
      · have hlen : ((a :: rest).take W).length = min W (rest.length + 1) := by simp
        intro hnil
        rw [hnil] at hlen
        simp at hlen
        omega
    · exact ih c hc

theorem chunks_getD {α : Type} (W : Nat) (hW : 0 < W) (l : List α) :
    ∀ i, i + 1 < (chunks W l).length → ((chunks W l).getD i []).length = W := by
  induction l using chunks.induct W with
  | case1 => simp [chunks]
  | case2 a rest h => exact absurd h (Nat.pos_iff_ne_zero.mp hW)
  | case3 a rest h ih =>
    rw [chunks]
    simp only [dif_neg h]
    intro i hi
    match i with
    | 0 =>
      simp only [List.getD_cons_zero]
      simp only [List.length_cons] at hi
      have hne : chunks W ((a :: rest).drop W) ≠ [] := by
        intro hnil
        rw [hnil] at hi
        simp at hi
      have hdrop : (a :: rest).drop W ≠ [] := by
        intro hnil
        exact hne (by rw [hnil, chunks_nil])
      have hpos : 0 < ((a :: rest).drop W).length := List.length_pos.mpr hdrop
      simp only [List.length_drop, List.length_cons] at hpos
      simp
      omega
    | i + 1 =>
      simp only [List.getD_cons_succ]
      simp only [List.length_cons] at hi
      exact ih i (by omega)

theorem flatten_map_map {α β : Type} (f : α → β) (L : List (List α)) :
    (L.map (List.map f)).flatten = L.flatten.map f := by
  induction L with
  | nil => rfl
  | cons x xs ih =>
    simp only [List.map_cons, List.flatten_cons, List.map_append, ih]

theorem batch_results_eq_map {α β : Type} (getId : α → Nat)
    (proc : α → Except String (Nat × β)) (items : List α) (W : Nat) (hW : 0 < W) :
    (process_batch_list getId proc items W).results
      = items.map (process_single_item getId proc) := by
  show ((chunks W items).map
      (fun wave => wave.map (process_single_item getId proc))).flatten = _
  rw [flatten_map_map, chunks_flatten W hW]

/-- Claim C5: for a batch of N items and wave size W > 0, the number of waves
is ceil(N/W) = (N + W - 1) / W; every wave except possibly the last has exactly
W items and no wave is empty or exceeds W; the report's result list is the
wave-by-wave concatenation of per-item outcomes (the sequential-wave structure
of the batch loop) and equals the per-item outcomes in input order; and the
report counts total_processed = N, success = number of outcomes with status
"success", failed = N - success. -/
theorem C5_waves {α β : Type} (getId : α → Nat) (proc : α → Except String (Nat × β))
    (items : List α) (W : Nat) (hW : 0 < W) :
    (chunks W items).length = (items.length + W - 1) / W
  ∧ (∀ i, i + 1 < (chunks W items).length → ((chunks W items).getD i []).length = W)
  ∧ (∀ c ∈ chunks W items, c.length ≤ W ∧ c ≠ [])
  ∧ (process_batch_list getId proc items W).results
      = ((chunks W items).map
          (fun wave => wave.map (process_single_item getId proc))).flatten
  ∧ (process_batch_list getId proc items W).results
      = items.map (process_single_item getId proc)
  ∧ (process_batch_list getId proc items W).totalProcessed = items.length
  ∧ (process_batch_list getId proc items W).success
      = ((process_batch_list getId proc items W).results.filter
          (fun r => r.status == "success")).length
  ∧ (process_batch_list getId proc items W).failed
      = items.length - (process_batch_list getId proc items W).success := by
  refine ⟨chunks_length W hW items, chunks_getD W hW items, chunks_mem W hW items,
    rfl, batch_results_eq_map getId proc items W hW, rfl, rfl, rfl⟩

/-- Claim C5, witness: 25 items with wave size 10 give 3 waves and a report
with total_processed = 25. -/
theorem C5_witness :
    (chunks 10 (List.range 25)).length = 3
  ∧ (process_batch_list id proc25 (List.range 25) 10).totalProcessed = 25 := by
  have h := C5_waves id proc25 (List.range 25) 10 (by decide)
  refine ⟨?_, ?_⟩
  · rw [h.1]; simp [List.length_range]
  · rw [h.2.2.2.2.2.1]; simp [List.length_range]

/-- Claim C6: processing one item always yields a terminal outcome (status
"success" or "error"); an exception inside an item's processing is caught and
recorded as the error dict with status "error" and the exception's message;
and each item's entry in the batch report is determined by that item alone
(outcome j is the processing of item j), so one item's failure cannot affect
any sibling item of any wave, and every one of the N items reaches an outcome. -/
theorem C6_item_isolation {α β : Type} (getId : α → Nat)
    (proc : α → Except String (Nat × β)) (items : List α) (W : Nat) (hW : 0 < W)
    (item : α) (m : String) :
    ((process_single_item getId proc item).status = "success"
       ∨ (process_single_item getId proc item).status = "error")
  ∧ (proc item = .error m →
       process_single_item getId proc item
         = ⟨getId item, Option.none, "error", Option.none, Option.some m⟩)
  ∧ (∀ j : Nat, (process_batch_list getId proc items W).results[j]?
       = (items[j]?).map (process_single_item getId proc))
  ∧ (process_batch_list getId proc items W).results.length = items.length := by
  refine ⟨?_, ?_, ?_, ?_⟩
  · cases hp : proc item <;> simp [process_single_item, hp]
  · intro hp
    simp [process_single_item, hp]
  · intro j
    rw [batch_results_eq_map getId proc items W hW]
    simp
  · rw [batch_results_eq_map getId proc items W hW]
    simp

/-- Claim C6, witness: item 0 of the concrete batch fails and is recorded as
an error outcome, while the full 25-item report still has 25 outcomes. -/
theorem C6_witness :
    process_single_item id proc25 0
      = ⟨0, Option.none, "error", Option.none, Option.some "item caido"⟩
  ∧ (process_batch_list id proc25 (List.range 25) 10).results.length = 25 := by
  have h := C6_item_isolation id proc25 (List.range 25) 10 (by decide) 0 "item caido"
  refine ⟨h.2.1 (by decide), ?_⟩
  rw [h.2.2.2]; simp [List.length_range]

/- ------------------------------------------------------------------ -/
/- Orchestrator lemmas                                                 -/
/- ------------------------------------------------------------------ -/

theorem orchestrate_main_videoPath (env : Env) (db : DB) (sid : Nat)
    (data : WorkflowData) (p : String) (hd : env.download data.urlVideo = .ok p) :
    (orchestrate_main env db sid data).videoPath = Option.some p := by
  unfold orchestrate_main
  rw [run_step_eq_ok db sid 1 (fun _ => env.download data.urlVideo) p hd]
  dsimp only
  repeat first | rfl | split

theorem okLog_append (l1 l2 : List Op) (n : Nat) (h1 : okLog l1 = true)
    (hlt : targetsLt n l1 = true) (h2 : okLog l2 = true)
    (hall : ∀ op ∈ l2, op.target = n) : okLog (l1 ++ l2) = true := by
  induction l1 with
  | nil => simpa using h2
  | cons a as ih =>
    simp only [okLog, Bool.and_eq_true, Bool.or_eq_true] at h1
    simp only [targetsLt, List.all_cons, Bool.and_eq_true] at hlt
    simp only [List.cons_append, okLog, Bool.and_eq_true, Bool.or_eq_true]
    refine ⟨?_, ih h1.2 (by simpa [targetsLt] using hlt.2)⟩
    rcases h1.1 with hterm | hrest
    · exact Or.inl hterm
    · right
      rw [List.all_eq_true]
      intro o ho
      rcases List.mem_append.mp ho with hmem | hmem
      · exact List.all_eq_true.mp hrest o hmem
      · have hon : o.target = n := hall o hmem
        have ha : a.target < n := by simpa using hlt.1
        simp [hon, bne_iff_ne]
        omega

theorem targetsLt_append (l1 l2 : List Op) (n : Nat) (hlt : targetsLt n l1 = true)
    (hall : ∀ op ∈ l2, op.target = n) : targetsLt (n + 1) (l1 ++ l2) = true := by
  simp only [targetsLt, List.all_append, Bool.and_eq_true, List.all_eq_true,
    decide_eq_true_eq] at hlt ⊢
  refine ⟨fun op hop => ?_, fun op hop => ?_⟩
  · have := hlt op hop
    omega
  · have := hall op hop
    omega

theorem Inv_step {α : Type} [PyLike α] (db : DB) (s e : Nat)
    (f : Nat → Except String α) (h : Inv db) :
    Inv (run_step_with_retry db s e f).1 := by
  rcases h with ⟨hok, hlt⟩
  cases hf : f 0 with
  | ok v =>
    rw [run_step_eq_ok db s e f v hf]
    constructor
    · refine okLog_append _ _ db.detalles.length hok hlt ?_ ?_
      · rfl
      · intro op hop
        simp only [List.mem_cons, List.not_mem_nil, or_false] at hop
        rcases hop with h | h | h <;> subst h <;> rfl
    · have hlen : (db.detalles ++
          [(⟨s, e, 3, if PyLike.truthy v then PyLike.pyStr v else "Completado.", 0⟩ : Detalle)]).length
          = db.detalles.length + 1 := by simp
      rw [hlen]
      refine targetsLt_append _ _ _ hlt ?_
      intro op hop
      simp only [List.mem_cons, List.not_mem_nil, or_false] at hop
      rcases hop with h | h | h <;> subst h <;> rfl
  | error m =>
    rw [run_step_eq_err db s e f m hf]
    constructor
    · refine okLog_append _ _ db.detalles.length hok hlt ?_ ?_
      · rfl
      · intro op hop
        simp only [List.mem_cons, List.not_mem_nil, or_false] at hop
        rcases hop with h | h | h <;> subst h <;> rfl
    · have hlen : (db.detalles ++
          [(⟨s, e, 4, "Error: " ++ m, 1⟩ : Detalle)]).length
          = db.detalles.length + 1 := by simp
      rw [hlen]
      refine targetsLt_append _ _ _ hlt ?_
      intro op hop
      simp only [List.mem_cons, List.not_mem_nil, or_false] at hop
      rcases hop with h | h | h <;> subst h <;> rfl

theorem orchestrate_main_Inv (env : Env) (db : DB) (sid : Nat)
    (data : WorkflowData) (h : Inv db) :
    Inv (orchestrate_main env db sid data).db := by
  unfold orchestrate_main
  dsimp only
  repeat first
    | exact h
    | exact Inv_step _ _ _ _ h
    | apply Inv_step
    | split
    | dsimp only

theorem okLog_spec (log : List Op) (hok : okLog log = true) :
    ∀ i j, i < j → j < log.length →
      (log.getD i (.create 0 0 0)).isTerminal = true →
      (log.getD j (.create 0 0 0)).target ≠ (log.getD i (.create 0 0 0)).target := by
  induction log with
  | nil =>
    intro i j hij hj
    simp at hj
  | cons a rest ih =>
    simp only [okLog, Bool.and_eq_true, Bool.or_eq_true] at hok
    intro i j hij hj hterm
    match i, j with
    | 0, j + 1 =>
      simp only [List.getD_cons_zero, List.getD_cons_succ] at hterm ⊢
      rcases hok.1 with hnot | hall
      · rw [hterm] at hnot
        simp at hnot
      · rw [List.all_eq_true] at hall
        simp only [List.length_cons] at hj
        have hjlt : j < rest.length := by omega
        have hmem : rest.getD j (.create 0 0 0) ∈ rest := by
          rw [List.getD_eq_getElem _ _ hjlt]
          exact List.getElem_mem hjlt
        have := hall _ hmem
        simpa [bne_iff_ne] using this
    | i + 1, j + 1 =>
      simp only [List.getD_cons_succ] at hterm ⊢
      simp only [List.length_cons] at hj
      exact ih hok.2 i j (by omega) (by omega) hterm

/- ------------------------------------------------------------------ -/
/- Claims about the orchestrator                                       -/
/- ------------------------------------------------------------------ -/

/-- Claim C7: a run whose requested optional outputs list is empty and whose
four mandatory stages succeed returns a report with status "success", pdf_url
None and podcast_url None, and creates exactly four Stage records (etapas 1-4:
download, audio, transcribe, summarize), all Completed; skipped optional steps
leave no Stage record. -/
theorem C7_no_optional_outputs (env : Env) (rf : Bool) (fs : List String)
    (sid : Nat) (data : WorkflowData) (p a t s : String)
    (htip : data.tipos = [])
    (hd : env.download data.urlVideo = .ok p)
    (ha : env.extractAudio p = .ok a)
    (ht : transcribeTask env a sid = .ok t)
    (hs : env.summarize t = .ok s) :
    (orchestrate_up_to_summary env rf emptyDB fs sid data).outcome
      = .ok ⟨"Workflow completado exitosamente", sid, "success", s.take 100 ++ "...",
             Option.none, Option.none⟩
  ∧ (orchestrate_up_to_summary env rf emptyDB fs sid data).db.detalles.map Detalle.etapaId
      = [1, 2, 3, 4]
  ∧ (orchestrate_up_to_summary env rf emptyDB fs sid data).db.detalles.map Detalle.estado
      = [3, 3, 3, 3] := by
  simp [orchestrate_up_to_summary, orchestrate_main, run_step_with_retry,
    create_detalle_etapa, update_detalle_estado, emptyDB, hd, ha, ht, hs, htip,
    setDetalle]

set_option maxRecDepth 4000 in
/-- Claim C7, witness: a concrete all-success run with no optional outputs. -/
theorem C7_witness :
    (orchestrate_up_to_summary envAllOk false emptyDB [] 7 ⟨"u", 0, []⟩).outcome
      = .ok ⟨"Workflow completado exitosamente", 7, "success",
             "resumen de la sesion...", Option.none, Option.none⟩
  ∧ (orchestrate_up_to_summary envAllOk false emptyDB [] 7
        ⟨"u", 0, []⟩).db.detalles.map Detalle.etapaId = [1, 2, 3, 4] := by
  have h := C7_no_optional_outputs envAllOk false [] 7 ⟨"u", 0, []⟩ "/tmp/7.mp4"
    "/tmp/7.mp3" "texto transcrito largo" "resumen de la sesion" rfl rfl rfl
    (by decide) rfl
  exact ⟨by rw [h.1]; decide, h.2.1⟩

/-- Claim C4: when a mandatory stage fails terminally, the orchestrator raises
that exception and creates no Stage record for any later stage: a download
failure leaves exactly one Stage record (etapa 1, Failed), an audio-extraction
failure exactly two, a transcription failure exactly three (download and audio
Completed, transcribe Failed), and a summarization failure exactly four. -/
theorem C4_mandatory_failure_stops_pipeline (env : Env) (rf : Bool)
    (fs : List String) (sid : Nat) (data : WorkflowData) (p a t m : String) :
    ((env.download data.urlVideo = .error m →
        (orchestrate_up_to_summary env rf emptyDB fs sid data).outcome = .error m
      ∧ (orchestrate_up_to_summary env rf emptyDB fs sid data).db.detalles.map
          Detalle.etapaId = [1]
      ∧ (orchestrate_up_to_summary env rf emptyDB fs sid data).db.detalles.map
          Detalle.estado = [4]))
  ∧ (env.download data.urlVideo = .ok p → env.extractAudio p = .error m →
        (orchestrate_up_to_summary env rf emptyDB fs sid data).outcome = .error m
      ∧ (orchestrate_up_to_summary env rf emptyDB fs sid data).db.detalles.map
          Detalle.etapaId = [1, 2]
      ∧ (orchestrate_up_to_summary env rf emptyDB fs sid data).db.detalles.map
          Detalle.estado = [3, 4])
  ∧ (env.download data.urlVideo = .ok p → env.extractAudio p = .ok a →
     transcribeTask env a sid = .error m →
        (orchestrate_up_to_summary env rf emptyDB fs sid data).outcome = .error m
      ∧ (orchestrate_up_to_summary env rf emptyDB fs sid data).db.detalles.map
          Detalle.etapaId = [1, 2, 3]
      ∧ (orchestrate_up_to_summary env rf emptyDB fs sid data).db.detalles.map
          Detalle.estado = [3, 3, 4])
  ∧ (env.download data.urlVideo = .ok p → env.extractAudio p = .ok a →
     transcribeTask env a sid = .ok t → env.summarize t = .error m →
        (orchestrate_up_to_summary env rf emptyDB fs sid data).outcome = .error m
      ∧ (orchestrate_up_to_summary env rf emptyDB fs sid data).db.detalles.map
          Detalle.etapaId = [1, 2, 3, 4]
      ∧ (orchestrate_up_to_summary env rf emptyDB fs sid data).db.detalles.map
          Detalle.estado = [3, 3, 3, 4]) := by
  refine ⟨?_, ?_, ?_, ?_⟩
  · intro hd
    simp [orchestrate_up_to_summary, orchestrate_main, run_step_with_retry,
      create_detalle_etapa, update_detalle_estado, emptyDB, hd, setDetalle]
  · intro hd ha
    simp [orchestrate_up_to_summary, orchestrate_main, run_step_with_retry,
      create_detalle_etapa, update_detalle_estado, emptyDB, hd, ha, setDetalle]
  · intro hd ha ht
    simp [orchestrate_up_to_summary, orchestrate_main, run_step_with_retry,
      create_detalle_etapa, update_detalle_estado, emptyDB, hd, ha, ht, setDetalle]
  · intro hd ha ht hs
    simp [orchestrate_up_to_summary, orchestrate_main, run_step_with_retry,
      create_detalle_etapa, update_detalle_estado, emptyDB, hd, ha, ht, hs, setDetalle]

/-- Claim C4, witness: the transcription collaborator fails terminally, the run
raises and exactly three Stage records exist (download and audio Completed,
transcribe Failed). -/
theorem C4_witness :
    (orchestrate_up_to_summary envTransFails false emptyDB [] 7 ⟨"u", 0, []⟩).outcome
      = .error "azure caido"
  ∧ (orchestrate_up_to_summary envTransFails false emptyDB [] 7
        ⟨"u", 0, []⟩).db.detalles.map Detalle.etapaId = [1, 2, 3]
  ∧ (orchestrate_up_to_summary envTransFails false emptyDB [] 7
        ⟨"u", 0, []⟩).db.detalles.map Detalle.estado = [3, 3, 4] :=
  (C4_mandatory_failure_stops_pipeline envTransFails false [] 7 ⟨"u", 0, []⟩
    "/tmp/7.mp4" "/tmp/7.mp3" "" "azure caido").2.2.1 rfl rfl (by decide)

/-- Claim C3, counterexample: with both PDF (kind 1) and podcast (kind 3)
requested and the PDF stage failing terminally, the orchestrator aborts: only
Stage records for etapas 1-5 exist, no podcast stage (etapa 6 or 7) is ever
begun, and the run raises the PDF error — the podcast branch is not attempted,
contradicting the claimed independence of the sibling branches. -/
theorem C3_counterexample :
    ((orchestrate_up_to_summary envPdfFails false emptyDB [] 7
        ⟨"http://v", 0, [1, 3]⟩).db.detalles.map Detalle.etapaId = [1, 2, 3, 4, 5])
  ∧ (∀ d ∈ (orchestrate_up_to_summary envPdfFails false emptyDB [] 7
        ⟨"http://v", 0, [1, 3]⟩).db.detalles, d.etapaId ≠ 6)
  ∧ (orchestrate_up_to_summary envPdfFails false emptyDB [] 7
        ⟨"http://v", 0, [1, 3]⟩).outcome = .error "pdf caido" := by
  refine ⟨by decide, by decide, by decide⟩

set_option maxHeartbeats 1000000 in
/-- Claim C3, amended: optional branches are not independent.  When both PDF
and podcast outputs are requested and the (earlier) PDF stage fails terminally,
its exception propagates out of the orchestrator immediately: exactly the Stage
records for etapas 1-5 exist and the podcast stages (etapas 6 and 7) are never
attempted. -/
theorem C3_amended (env : Env) (rf : Bool) (fs : List String) (sid : Nat)
    (data : WorkflowData) (p a t s m : String)
    (h1 : data.tipos.contains 1 = true)
    (hd : env.download data.urlVideo = .ok p)
    (ha : env.extractAudio p = .ok a)
    (ht : transcribeTask env a sid = .ok t)
    (hs : env.summarize t = .ok s)
    (hp : env.genPdf sid s data.idPEspecificoSesion = .error m) :
    (orchestrate_up_to_summary env rf emptyDB fs sid data).outcome = .error m
  ∧ (orchestrate_up_to_summary env rf emptyDB fs sid data).db.detalles.map
      Detalle.etapaId = [1, 2, 3, 4, 5]
  ∧ (∀ d ∈ (orchestrate_up_to_summary env rf emptyDB fs sid data).db.detalles,
      d.etapaId ≠ 6 ∧ d.etapaId ≠ 7) := by
  unfold orchestrate_up_to_summary orchestrate_main
  rw [run_step_eq_ok emptyDB sid 1 (fun _ => env.download data.urlVideo) p hd]
  dsimp only
  rw [run_step_eq_ok _ sid 2 (fun _ => env.extractAudio p) a ha]
  dsimp only
  rw [run_step_eq_ok _ sid 3 (fun _ => transcribeTask env a sid) t ht]
  dsimp only
  rw [run_step_eq_ok _ sid 4 (fun _ => env.summarize t) s hs]
  dsimp only
  rw [if_pos h1]
  rw [run_step_eq_err _ sid 5 (fun _ => env.genPdf sid s data.idPEspecificoSesion) m hp]
  dsimp only [Except.map]
  refine ⟨rfl, ?_, ?_⟩
  · simp [emptyDB]
  · intro d hd2
    simp [emptyDB] at hd2
    rcases hd2 with h | h | h | h | h <;> subst h <;> exact ⟨by simp, by simp⟩

/-- Claim C3, witness: a concrete run with both branches requested whose PDF
stage fails, exercising the amended statement. -/
theorem C3_witness :
    (orchestrate_up_to_summary envPdfFails false emptyDB [] 9
        ⟨"u", 0, [1, 3]⟩).outcome = .error "pdf caido"
  ∧ (orchestrate_up_to_summary envPdfFails false emptyDB [] 9
        ⟨"u", 0, [1, 3]⟩).db.detalles.map Detalle.etapaId = [1, 2, 3, 4, 5] := by
  have h := C3_amended envPdfFails false [] 9 ⟨"u", 0, [1, 3]⟩ "/tmp/7.mp4"
    "/tmp/7.mp3" "texto transcrito largo" "resumen de la sesion" "pdf caido"
    (by decide) rfl rfl (by decide) rfl rfl
  exact ⟨h.1, h.2.1⟩

/-- Claim C8: the finally block's behaviour.  The report or exception and the
Stage records of a run do not depend on whether the file removal raises (a
cleanup error is swallowed and never masks the run's outcome), and whenever the
download produced a (truthy) local file path, that file no longer exists after
the run when removal works, whatever the rest of the pipeline did. -/
theorem C8_cleanup_swallowed (env : Env) (rf rf2 : Bool) (db : DB)
    (fs : List String) (sid : Nat) (data : WorkflowData) :
    ((orchestrate_up_to_summary env rf db fs sid data).outcome
        = (orchestrate_up_to_summary env rf2 db fs sid data).outcome)
  ∧ ((orchestrate_up_to_summary env rf db fs sid data).db
        = (orchestrate_up_to_summary env rf2 db fs sid data).db)
  ∧ (∀ p, env.download data.urlVideo = .ok p → p ≠ "" →
        p ∉ (orchestrate_up_to_summary env false db fs sid data).fs) := by
  refine ⟨rfl, rfl, ?_⟩
  intro p hd hne
  unfold orchestrate_up_to_summary
  dsimp only
  rw [hd, orchestrate_main_videoPath env db sid data p hd]
  simp [cleanup, removeFile, List.mem_filter, hne]

/-- Claim C8, witness: a concrete run where removal raising leaves the outcome
unchanged, and with working removal the downloaded file is gone. -/
theorem C8_witness :
    (orchestrate_up_to_summary envAllOk true emptyDB ["x"] 7 ⟨"u", 0, []⟩).outcome
      = (orchestrate_up_to_summary envAllOk false emptyDB ["x"] 7 ⟨"u", 0, []⟩).outcome
  ∧ "/tmp/7.mp4" ∉
      (orchestrate_up_to_summary envAllOk false emptyDB ["x"] 7 ⟨"u", 0, []⟩).fs := by
  have h := C8_cleanup_swallowed envAllOk true false emptyDB ["x"] 7 ⟨"u", 0, []⟩
  exact ⟨h.1, h.2.2 "/tmp/7.mp4" rfl (by decide)⟩

/-- Claim C9, counterexample: update_detalle_estado performs no terminal-state
guard.  Called on a stage record that is already Completed (estado 3), the
progress update is applied — the record is mutated back to estado 2 — so the
call is neither rejected nor a no-op. -/
theorem C9_counterexample :
    (update_detalle_estado dbCompleted 0 2 "reabierto" 0).detalles
        = [⟨1, 1, 2, "reabierto", 0⟩]
  ∧ (update_detalle_estado dbCompleted 0 2 "reabierto" 0).detalles
        ≠ dbCompleted.detalles := by
  refine ⟨rfl, by decide⟩

/-- Claim C9, amended: the repository operation itself applies updates
unconditionally (any terminal-state guard would live in the stored procedure,
which is outside this repository), but the orchestrator maintains the claimed
monotonicity: in every pipeline run, once an operation with a terminal estado
(3 or 4) was issued for a stage record, no later repository operation targets
that record. -/
theorem C9_amended (env : Env) (rf : Bool) (fs : List String) (sid : Nat)
    (data : WorkflowData) :
    ∀ i j, i < j →
      j < (orchestrate_up_to_summary env rf emptyDB fs sid data).db.log.length →
      ((orchestrate_up_to_summary env rf emptyDB fs sid data).db.log.getD i
          (.create 0 0 0)).isTerminal = true →
      ((orchestrate_up_to_summary env rf emptyDB fs sid data).db.log.getD j
          (.create 0 0 0)).target
        ≠ ((orchestrate_up_to_summary env rf emptyDB fs sid data).db.log.getD i
          (.create 0 0 0)).target := by
  have hInv : Inv (orchestrate_up_to_summary env rf emptyDB fs sid data).db :=
    orchestrate_main_Inv env emptyDB sid data ⟨rfl, rfl⟩
  exact okLog_spec _ hInv.1

/-- Claim C9, witness: in a concrete run, the operation after the download
stage's terminal update targets a different stage record. -/
theorem C9_witness :
    ((orchestrate_up_to_summary envAllOk false emptyDB [] 7 ⟨"u", 0, []⟩).db.log.getD 3
        (.create 0 0 0)).target
      ≠ ((orchestrate_up_to_summary envAllOk false emptyDB [] 7 ⟨"u", 0, []⟩).db.log.getD 2
        (.create 0 0 0)).target :=
  C9_amended envAllOk false [] 7 ⟨"u", 0, []⟩ 2 3 (by decide) (by decide) (by decide)

end BSG
